import Mathlib

/-
Verification of the agent control loop, answer cache, and tool dispatcher of
the hf_agents_final repository (src/agent.py, src/tools.py), as a shallow
embedding in Lean 4.

Modelling conventions:
- Python machine values used by the program are scalars (str, int, float) or
  one-level dicts whose values are scalars; they are embedded as PyBase/PyVal.
  Python floats are embedded as exact rationals (Rat); the claims settled here
  never depend on float rounding.
- Python exceptions are embedded as Except: a function that can raise returns
  Except E A, and the dispatcher converts a raised exception e to str(e),
  embedded as the String carried by the error.
- External collaborators (the HuggingFace model endpoint, the network inside
  the search/transcript tools, the json library, the store file) are embedded
  as explicit function or value parameters, so that every definition stays
  executable.
- str.strip is embedded as String.trim and str.lower as Char.toLower on each
  character (ASCII case folding); the claims only exercise inputs where these
  agree with Python.
-/

namespace Agent

/-- Scalar Python values appearing in this program. -/
inductive PyBase where
  | str (s : String)
  | int (n : Int)
  | rat (q : Rat)
  deriving DecidableEq

/-- Python values flowing through the tool dispatcher: scalars, or one-level
dicts of scalars (tool argument mappings such as the pair a, b of divide, and
single-field result dicts such as wiki_results). -/
inductive PyVal where
  | base (b : PyBase)
  | dict (fields : List (String × PyBase))
  deriving DecidableEq

/-- Minimal JSON string escaping (backslash and double quote), sufficient for
the strings serialized in the settled claims; json.dumps escapes a superset. -/
def jsonEscapeChar (c : Char) : String :=
  if c = '\\' then "\\\\" else if c = '"' then "\\\"" else String.singleton c

def jsonEscape (s : String) : String :=
  String.join (s.toList.map jsonEscapeChar)

def jsonDumpsBase : PyBase → String
  | .str s => "\"" ++ jsonEscape s ++ "\""
  | .int n => toString n
  | .rat q => toString q

/-- json.dumps as used on tool results in tool_executor_node
(src/agent.py line 102). -/
def jsonDumps : PyVal → String
  | .base b => jsonDumpsBase b
  | .dict fs =>
    "\x7b" ++
      String.intercalate ", "
        (fs.map (fun p => "\"" ++ jsonEscape p.1 ++ "\": " ++ jsonDumpsBase p.2)) ++
      "\x7d"

/-- One record of the persisted answer cache (memory.json). -/
structure CacheEntry where
  question : String
  answer : String
  deriving DecidableEq

/-- A model-issued tool call: id, tool name, argument mapping
(the dict shape consumed by SimpleToolExecutor.invoke). -/
structure ToolCall where
  id : String
  name : String
  args : PyVal
  deriving DecidableEq

/-- Conversation messages: System, Human, Assistant (with its pending tool
calls), ToolResult (tagged with the originating call id). -/
inductive Message where
  | system (content : String)
  | human (content : String)
  | ai (content : String) (tool_calls : List ToolCall)
  | tool (content : String) (tool_call_id : String)
  deriving DecidableEq

def Message.content : Message → String
  | .system c => c
  | .human c => c
  | .ai c _ => c
  | .tool c _ => c

def Message.isHuman : Message → Bool
  | .human _ => true
  | _ => false

/-- A registered tool: its run function takes the argument mapping and either
returns a value or raises; the error string is str(e) of the raised
exception. The registry embeds the dict SimpleToolExecutor builds from the
tool list; the tool names in the program are pairwise distinct, so first-match
lookup agrees with the Python dict. -/
abbrev Registry := List (String × (PyVal → Except String PyVal))

/-- The body of the per-call loop of SimpleToolExecutor.invoke
(src/agent.py lines 31-40): look the tool up by name; unknown name yields the
not-found placeholder string; a raising run yields str(e); success yields the
result. -/
def dispatchOne (registry : Registry) (call : ToolCall) : PyVal :=
  match List.lookup call.name registry with
  | some t =>
    match t call.args with
    | .ok r => r
    | .error e => .base (.str e)
  | none => .base (.str ("Tool " ++ call.name ++ " not found."))

/-- SimpleToolExecutor.invoke (src/agent.py lines 29-41): the appending loop
over the batch is the map of dispatchOne over the calls. -/
def SimpleToolExecutor.invoke (registry : Registry) (tool_calls : List ToolCall) :
    List PyVal :=
  tool_calls.map (dispatchOne registry)

/-- divide (src/tools.py lines 37-47): raises ValueError on a zero divisor,
otherwise returns the true-division result (embedded as an exact rational). -/
def divide (a b : Int) : Except String Rat :=
  if b = 0 then .error "Cannot divide by zero."
  else .ok ((a : Rat) / (b : Rat))

/-- The run function of the divide tool as seen by the dispatcher: binds the
a and b fields of the argument dict to ints and calls divide; the langchain
argument-validation failure path is abstracted as a generic error (not
exercised by any claim). -/
def divide_run (args : PyVal) : Except String PyVal :=
  match args with
  | .dict fs =>
    match List.lookup "a" fs, List.lookup "b" fs with
    | some (.int a), some (.int b) => (divide a b).map (fun q => .base (.rat q))
    | _, _ => .error "validation error"
  | _ => .error "validation error"

/-- MAX_MEMORY (src/agent.py line 16). -/
def MAX_MEMORY : Nat := 1000

/-- save_memory (src/agent.py lines 58-64), with the store file content as
explicit state: append the entry, and when the size exceeds MAX_MEMORY keep
the last MAX_MEMORY entries (memory[-MAX_MEMORY:]). -/
def save_memory (memory : List CacheEntry) (entry : CacheEntry) : List CacheEntry :=
  let m := memory ++ [entry]
  if MAX_MEMORY < m.length then m.drop (m.length - MAX_MEMORY) else m

/-- load_memory (src/agent.py lines 52-56): the durable store is an absent
file (os.path.exists false) or a present file with text content; json.load is
an explicit parameter because it is a stdlib collaborator; when it raises, the
exception propagates out of load_memory. -/
def load_memory (parse : String → Except String (List CacheEntry))
    (file : Option String) : Except String (List CacheEntry) :=
  match file with
  | some doc => parse doc
  | none => .ok []

/-- Modelled from the spec and the json stdlib contract (the json module is
an external collaborator, not part of src/): json.load parses the serialized
entry list and raises JSONDecodeError on malformed text. The model covers the
fragment the theorems use: it accepts the empty-list document and rejects any
other text. -/
def jsonLoad (doc : String) : Except String (List CacheEntry) :=
  if doc = "[]" then .ok []
  else .error "json.decoder.JSONDecodeError: Expecting value"

/-- Python str.strip: drop leading and trailing whitespace. -/
def pyStrip (s : String) : String :=
  (((s.toList.dropWhile Char.isWhitespace).reverse.dropWhile
      Char.isWhitespace).reverse).asString

/-- Python str.lower (ASCII case folding on each character). -/
def pyLower (s : String) : String :=
  (s.toList.map Char.toLower).asString

/-- Python str.strip then str.lower, as applied by the retriever to the query
and to each stored question (src/agent.py lines 73 and 76). -/
def pyNorm (s : String) : String :=
  pyLower (pyStrip s)

/-- Length of the longest common prefix of two character lists. -/
def commonLen : List Char → List Char → Nat
  | a :: as, b :: bs => if a = b then commonLen as bs + 1 else 0
  | _, _ => 0

/-- difflib.SequenceMatcher.find_longest_match on the two full sequences, in
the no-junk regime (isjunk is None and, since the program never hands the
matcher a query of 200 or more characters in the settled claims, the autojunk
popularity heuristic is inactive): among all longest matching blocks, the one
starting earliest in a and then earliest in b, as the matcher documents and
computes. Scanning all start pairs in lexicographic order with strict
improvement yields exactly that block. -/
def findLongestMatch (a b : List Char) : Nat × Nat × Nat :=
  (List.range (a.length + 1)).foldl
    (fun best i =>
      (List.range (b.length + 1)).foldl
        (fun best j =>
          let k := commonLen (a.drop i) (b.drop j)
          if best.2.2 < k then (i, j, k) else best)
        best)
    (0, 0, 0)

/-- Total size of the matching blocks of difflib.SequenceMatcher
(get_matching_blocks): recursively take the longest match and recurse on the
pieces to its left and to its right. The fuel argument only bounds the
recursion depth for structural termination; each recursive call strictly
decreases the combined length, so the initial fuel of matchSum is never
exhausted. -/
def matchSumAux : Nat → List Char → List Char → Nat
  | 0, _, _ => 0
  | fuel + 1, a, b =>
    let m := findLongestMatch a b
    if m.2.2 = 0 then 0
    else
      matchSumAux fuel (a.take m.1) (b.take m.2.1) + m.2.2 +
        matchSumAux fuel (a.drop (m.1 + m.2.2)) (b.drop (m.2.1 + m.2.2))

def matchSum (a b : List Char) : Nat :=
  matchSumAux (a.length + b.length + 1) a b

/-- difflib.SequenceMatcher(None, a, b).ratio() (src/agent.py line 77):
2*M / (len(a) + len(b)) where M is the total matched size, and 1 when both
strings are empty; computed exactly over the rationals. -/
def similarity (a b : String) : Rat :=
  let la := a.toList
  let lb := b.toList
  if la.length + lb.length = 0 then 1
  else ((2 * matchSum la lb : Nat) : Rat) / ((la.length + lb.length : Nat) : Rat)

/-- The state flowing through the graph (MessagesStateWithFlag,
src/agent.py lines 67-69). -/
structure AgentState where
  messages : List Message
  retrieved_answer_found : Option Bool
  deriving DecidableEq

/-- The last message of the conversation (state["messages"][-1]). The code
indexes blindly; every reachable call site has a nonempty message list, and
the default of this total embedding is never exercised by the theorems. -/
def lastMessage (ms : List Message) : Message :=
  ms.getLastD (.human "")

def lastContent (ms : List Message) : String :=
  (lastMessage ms).content

/-- The comparison similarity(a, b) > 0.9 of src/agent.py line 78, phrased
over the naturals so that it evaluates inside the kernel: with M the matched
total and T the combined length, 2*M/T > 9/10 is 9*T < 20*M for T positive,
and the ratio of two empty strings is 1 > 0.9. The theorem
similarityGtThreshold_iff proves this Boolean equal to the rational
comparison. -/
def similarityGtThreshold (a b : String) : Bool :=
  let la := a.toList
  let lb := b.toList
  if la.length + lb.length = 0 then true
  else decide (9 * (la.length + lb.length) < 20 * matchSum la lb)

/-- The scan of the retriever loop (src/agent.py lines 74-78): the first
stored entry whose normalized question has similarity strictly above 0.9 with
the normalized query, scanning in store order (oldest first). -/
def memoryLookup (memory : List CacheEntry) (query : String) : Option CacheEntry :=
  memory.find? (fun entry => similarityGtThreshold (pyNorm entry.question) query)

/-- The retriever node (src/agent.py lines 72-83): on a hit, replace the
conversation by the process system prompt followed by an assistant message
holding the cached answer, and set the flag; on a miss, pass the messages
through with the flag cleared. -/
def retriever (sysP : String) (memory : List CacheEntry) (st : AgentState) :
    AgentState :=
  match memoryLookup memory (pyNorm (lastContent st.messages)) with
  | some entry => ⟨[.system sysP, .ai entry.answer []], some true⟩
  | none => ⟨st.messages, some false⟩

/-- The prompt string the assistant node sends to the endpoint
(src/agent.py lines 87-88): the contents of the system message and the state
messages joined by newlines (every message has a content attribute, so the
hasattr filter keeps them all). -/
def promptOf (sysP : String) (messages : List Message) : String :=
  String.intercalate "\n" ((Message.system sysP :: messages).map Message.content)

/-- The assistant node (src/agent.py lines 86-94). The endpoint call plus the
dict/str conversion of lines 89-93 is the oracle: whatever shape the endpoint
returns, lines 90-93 reduce it to a string, and the node appends
AIMessage(content=that string), which carries an empty tool_calls list. The
flag is reset to False. -/
def assistant (sysP : String) (oracle : String → String) (st : AgentState) :
    AgentState :=
  ⟨st.messages ++ [.ai (oracle (promptOf sysP st.messages)) []], some false⟩

/-- The tool executor node (src/agent.py lines 96-105): when the last message
is an assistant message with a nonempty tool_calls list, run the dispatcher
on the batch and append one ToolMessage per call, its content the
json.dumps-serialized result and its tag the originating call id; otherwise
pass the state through unchanged. -/
def tool_executor_node (registry : Registry) (st : AgentState) : AgentState :=
  match lastMessage st.messages with
  | .ai _ (c :: cs) =>
    let calls := c :: cs
    let results := SimpleToolExecutor.invoke registry calls
    let tool_messages :=
      (calls.zip results).map (fun pr => Message.tool (jsonDumps pr.2) pr.1.id)
    ⟨st.messages ++ tool_messages, some false⟩
  | _ => st

/-- The entry the save node persists (src/agent.py lines 109-111): the most
recent Human message content, scanning backward with default empty string,
paired with the content of the last message. -/
def saveEntry (st : AgentState) : CacheEntry :=
  ⟨match st.messages.reverse.find? Message.isHuman with
    | some m => m.content
    | none => "",
   lastContent st.messages⟩

/-- The save node (src/agent.py lines 108-112): append the entry to the
store via save_memory and return the state unchanged. -/
def save_answer_node (memory : List CacheEntry) (st : AgentState) :
    AgentState × List CacheEntry :=
  (st, save_memory memory (saveEntry st))

/-- The transition rule after the assistant node (should_continue,
src/agent.py lines 115-121): a truthy flag routes to "end"; otherwise an
assistant last message with a nonempty tool_calls list routes to the tool
executor, and anything else to the save node. -/
def should_continue (st : AgentState) : String :=
  if st.retrieved_answer_found = some true then "end"
  else
    match lastMessage st.messages with
    | .ai _ (_ :: _) => "tool_executor"
    | _ => "save_answer"

/-- The nodes of the compiled graph (build_graph, src/agent.py lines
124-135), plus the terminal END. -/
inductive GraphNode where
  | retriever
  | assistant
  | tool_executor
  | save_answer
  | done
  deriving DecidableEq

/-- A point of the graph execution: current node, state, and the content of
the persisted store (the single shared resource). -/
structure GraphConfig where
  node : GraphNode
  state : AgentState
  memory : List CacheEntry
  deriving DecidableEq

/-- External invocations observable during a turn: one per assistant-node
model call and one per tool-executor batch. -/
inductive TurnEvent where
  | modelCall
  | toolExec
  deriving DecidableEq

/-- One transition of the compiled graph (build_graph, src/agent.py lines
124-135): the conditional edge out of the retriever (END on a truthy flag,
else the assistant), the conditional edge out of the assistant driven by
should_continue (an unmapped label would be a langgraph runtime fault, hence
none), the unconditional edge from the tool executor back to the assistant,
and the edge from the save node to END. -/
def graphStep (sysP : String) (oracle : String → String) (registry : Registry)
    (c : GraphConfig) : Option (GraphConfig × Option TurnEvent) :=
  match c.node with
  | .retriever =>
    let st := retriever sysP c.memory c.state
    if st.retrieved_answer_found = some true then
      some (⟨.done, st, c.memory⟩, none)
    else
      some (⟨.assistant, st, c.memory⟩, none)
  | .assistant =>
    let st := assistant sysP oracle c.state
    if should_continue st = "tool_executor" then
      some (⟨.tool_executor, st, c.memory⟩, some .modelCall)
    else if should_continue st = "save_answer" then
      some (⟨.save_answer, st, c.memory⟩, some .modelCall)
    else none
  | .tool_executor =>
    some (⟨.assistant, tool_executor_node registry c.state, c.memory⟩, some .toolExec)
  | .save_answer =>
    let p := save_answer_node c.memory c.state
    some (⟨.done, p.1, p.2⟩, none)
  | .done => none

/-- Iterated graph transitions up to a fuel bound, collecting the external
invocation events in chronological order; none on exhausted fuel (the graph
itself has no iteration cap) or on a langgraph fault. -/
def runAux (sysP : String) (oracle : String → String) (registry : Registry) :
    Nat → GraphConfig → Option (GraphConfig × List TurnEvent)
  | 0, _ => none
  | fuel + 1, c =>
    if c.node = .done then some (c, [])
    else
      match graphStep sysP oracle registry c with
      | none => none
      | some (c2, ev) =>
        (runAux sysP oracle registry fuel c2).map
          (fun r => (r.1, ev.toList ++ r.2))

/-- One user turn (app.invoke with a single HumanMessage, src/agent.py line
146): start at the retriever entry point with the flag unset. Ten transitions
are more than any reachable turn uses. -/
def runTurn (sysP : String) (oracle : String → String) (registry : Registry)
    (memory : List CacheEntry) (user_input : String) :
    Option (GraphConfig × List TurnEvent) :=
  runAux sysP oracle registry 10 ⟨.retriever, ⟨[.human user_input], none⟩, memory⟩

/-- needle is a leading segment of the haystack. -/
def leadsWith : List Char → List Char → Bool
  | [], _ => true
  | _ :: _, [] => false
  | a :: as, b :: bs => a = b && leadsWith as bs

/-- needle occurs contiguously somewhere in the haystack. -/
def occursIn (needle : List Char) : List Char → Bool
  | [] => leadsWith needle []
  | c :: rest => leadsWith needle (c :: rest) || occursIn needle rest

/-- The Python substring test s1 in s2. -/
def pyContains (needle hay : String) : Bool :=
  occursIn needle.toList hay.toList

/-- Python str.split with a nonempty explicit separator, over character
lists; the fuel is only for structural termination and the initial fuel of
pySplit is never exhausted. -/
def pySplitAux (sep : List Char) : Nat → List Char → List Char → List (List Char)
  | _, [], acc => [acc.reverse]
  | 0, l, acc => [acc.reverse ++ l]
  | fuel + 1, c :: rest, acc =>
    if leadsWith sep (c :: rest) then
      acc.reverse :: pySplitAux sep fuel (List.drop (sep.length - 1) rest) []
    else
      pySplitAux sep fuel rest (c :: acc)

/-- Python str.split(sep) for a nonempty separator. -/
def pySplit (s sep : String) : List String :=
  (pySplitAux sep.toList (s.toList.length + 1) s.toList []).map List.asString

/-- urlparse(url).query: strip the fragment at the first hash, then take
everything after the first question mark (percent-decoding is not modelled;
no settled claim uses an escaped URL). -/
def urlQuery (url : String) : String :=
  let noFrag := (pySplit url "#").headD ""
  match pySplit noFrag "?" with
  | [] => ""
  | _ :: rest => String.intercalate "?" rest

/-- parse_qs(query)[key][0] when present: split the query on ampersands,
split each field at its first equals sign, drop fields without one and fields
with a blank value (the parse_qs default), and return the first value bound
to the key. -/
def parseQsGet (key qs : String) : Option String :=
  ((pySplit qs "&").filterMap (fun field =>
      match pySplit field "=" with
      | k :: v :: rest =>
        let value := String.intercalate "=" (v :: rest)
        if k = key ∧ value ≠ "" then some value else none
      | _ => none)).head?

/-- _get_video_id_from_url (src/tools.py lines 101-112): short-link URLs take
the last slash-segment up to a question mark; other URLs take the first v
query parameter; none when absent. The short-link branch can return the empty
string, which the caller treats as falsy. -/
def get_video_id_from_url (url : String) : Option String :=
  if pyContains "youtu.be" url then
    some ((pySplit ((pySplit url "/").getLastD "") "?").headD "")
  else
    parseQsGet "v" (urlQuery url)

/-- _get_transcript (src/tools.py lines 114-121), with the transcript API as
an explicit collaborator returning the caption texts of the video or none
when the fetch raises (the except branch): on success the texts are joined
with single spaces, on failure the function returns None. -/
def get_transcript (api : String → Option (List String))
    (video_id : String) : Option String :=
  match api video_id with
  | some items => some (String.intercalate " " items)
  | none => none

/-- Python exceptions that escape a modelled function. -/
inductive PyException where
  | typeError (msg : String)
  deriving DecidableEq

/-- get_youtube_transcript (src/tools.py lines 123-144): an unextractable or
falsy video id returns an error string; otherwise the transcript is fetched
and len(transcript) is taken unconditionally on line 140 — when
_get_transcript returned None, that len call raises TypeError, which escapes
to the caller; a fetched transcript longer than 15000 characters is truncated
with the trailing notice. -/
def get_youtube_transcript (api : String → Option (List String))
    (video_url : String) : Except PyException String :=
  match get_video_id_from_url video_url with
  | none => .ok "HATA: Geçersiz YouTube URL\x27si."
  | some vid =>
    if vid = "" then .ok "HATA: Geçersiz YouTube URL\x27si."
    else
      match get_transcript api vid with
      | none => .error (.typeError "object of type \x27NoneType\x27 has no len()")
      | some transcript =>
        if 15000 < transcript.length then
          .ok (transcript.take 15000 ++
            "\n\n[...NOT: Metin çok uzun olduğu için kırpılmıştır...]")
        else .ok transcript

/-- A demonstration registry for the dispatcher claims: a valid tool and a
tool whose invocation raises. -/
def demoRegistry : Registry :=
  [("add", fun _ => .ok (.base (.int 4))),
   ("boom", fun _ => .error "boom exploded")]

/-- The spec batch valid, unknown-name, valid-but-throws. -/
def demoCalls : List ToolCall :=
  [⟨"c1", "add", .dict [("a", .int 2), ("b", .int 2)]⟩,
   ⟨"c2", "nope", .base (.str "x")⟩,
   ⟨"c3", "boom", .base (.str "y")⟩]

/-- Witness batch for the amended C2: a valid call and an unknown-name call
pending on the last assistant message. -/
def demoToolCalls : List ToolCall :=
  [⟨"id1", "add", .dict [("a", .int 2), ("b", .int 2)]⟩,
   ⟨"id2", "nope", .base (.str "x")⟩]

/-- Witness state for the amended C2. -/
def demoToolState : AgentState :=
  ⟨[.human "add two and two", .ai "calling tools" demoToolCalls], some false⟩

/-- The Boolean threshold test used by memoryLookup agrees with the rational
comparison ratio > 0.9 written in the code. -/
theorem similarityGtThreshold_iff (a b : String) :
    similarityGtThreshold a b = true ↔ (9 : Rat) / 10 < similarity a b := by
  have key : ∀ M T : Nat, 0 < T →
      (9 * T < 20 * M ↔ (9 : Rat) / 10 < ((2 * M : Nat) : Rat) / ((T : Nat) : Rat)) := by
    intro M T hT
    rw [div_lt_div_iff₀ (by norm_num) (by exact_mod_cast hT),
      show ((2 * M : Nat) : Rat) * 10 = ((20 * M : Nat) : Rat) from by push_cast; ring,
      show (9 : Rat) * ((T : Nat) : Rat) = ((9 * T : Nat) : Rat) from by push_cast; ring]
    exact Nat.cast_lt.symm
  simp only [similarityGtThreshold, similarity]
  by_cases h : a.toList.length + b.toList.length = 0
  · rw [if_pos h, if_pos h]
    norm_num
  · rw [if_neg h, if_neg h]
    simp only [decide_eq_true_eq]
    exact key (matchSum a.toList b.toList) (a.toList.length + b.toList.length)
      (Nat.pos_of_ne_zero h)

/-- C4: appending to a store holding exactly MAX_MEMORY entries leaves
exactly MAX_MEMORY entries, with the new entry last and the previously
oldest entry dropped from the front; in general, whenever the append makes
the size exceed MAX_MEMORY, entries are dropped from the front until the
size is MAX_MEMORY again. -/
theorem cache_bound (memory : List CacheEntry) (entry : CacheEntry) :
    (memory.length = MAX_MEMORY →
      (save_memory memory entry).length = MAX_MEMORY ∧
      save_memory memory entry = memory.drop 1 ++ [entry] ∧
      (save_memory memory entry).getLast? = some entry) ∧
    (MAX_MEMORY < memory.length + 1 →
      save_memory memory entry =
        (memory ++ [entry]).drop (memory.length + 1 - MAX_MEMORY) ∧
      (save_memory memory entry).length = MAX_MEMORY) := by
  have hM : MAX_MEMORY = 1000 := rfl
  have hlen : (memory ++ [entry]).length = memory.length + 1 := by simp
  constructor
  · intro h
    have hgt : MAX_MEMORY < (memory ++ [entry]).length := by
      rw [hlen, h]; omega
    have hform : save_memory memory entry =
        (memory ++ [entry]).drop (memory.length + 1 - MAX_MEMORY) := by
      simp only [save_memory, hlen]
      rw [if_pos (by rw [hlen] at hgt; exact hgt)]
    have hdrop1 : memory.length + 1 - MAX_MEMORY = 1 := by omega
    have hsplit : (memory ++ [entry]).drop 1 = memory.drop 1 ++ [entry] :=
      List.drop_append_of_le_length (by omega)
    refine ⟨?_, ?_, ?_⟩
    · rw [hform, List.length_drop, hlen, h]; omega
    · rw [hform, hdrop1, hsplit]
    · rw [hform, hdrop1, hsplit, List.getLast?_concat]
  · intro h
    have hgt : MAX_MEMORY < (memory ++ [entry]).length := by rw [hlen]; omega
    have hform : save_memory memory entry =
        (memory ++ [entry]).drop (memory.length + 1 - MAX_MEMORY) := by
      simp only [save_memory, hlen]
      rw [if_pos (by rw [hlen] at hgt; exact hgt)]
    refine ⟨hform, ?_⟩
    rw [hform, List.length_drop, hlen]
    omega

/-- Witness for C4 at a store of exactly MAX_MEMORY identical entries. -/
theorem cache_bound_witness :
    (save_memory (List.replicate MAX_MEMORY ⟨"q", "a"⟩) ⟨"new", "fresh"⟩).length
        = MAX_MEMORY ∧
    (save_memory (List.replicate MAX_MEMORY ⟨"q", "a"⟩) ⟨"new", "fresh"⟩).getLast?
        = some ⟨"new", "fresh"⟩ := by
  have h := (cache_bound (List.replicate MAX_MEMORY ⟨"q", "a"⟩) ⟨"new", "fresh"⟩).1
    (by simp)
  exact ⟨h.1, h.2.2⟩

/-- C7: divide signals the divide-by-zero domain error as a raised
ValueError exactly when the divisor is zero, returning a number otherwise; in
particular divide 5 0 raises, and the dispatcher converts that raise into the
explanatory string result. -/
theorem divide_domain_error (a b : Int) :
    (b = 0 → divide a b = .error "Cannot divide by zero.") ∧
    (b ≠ 0 → ∃ q : Rat, divide a b = .ok q) ∧
    divide 5 0 = .error "Cannot divide by zero." ∧
    dispatchOne [("divide", divide_run)]
        ⟨"call_1", "divide", .dict [("a", .int 5), ("b", .int 0)]⟩
      = .base (.str "Cannot divide by zero.") := by
  refine ⟨fun h => by simp [divide, h], fun h => ⟨(a : Rat) / (b : Rat), by simp [divide, h]⟩, rfl, rfl⟩

/-- Witness for C7 at divisor zero and at a nonzero divisor. -/
theorem divide_domain_error_witness :
    divide 5 0 = .error "Cannot divide by zero." ∧
    ∃ q : Rat, divide 7 2 = .ok q := by
  exact ⟨(divide_domain_error 5 0).1 rfl, (divide_domain_error 7 2).2.1 (by decide)⟩

/-- C3: the dispatcher returns one result per supplied call, in the same
order (position i of the result list is the dispatch of position i of the
call list, so no result depends on any sibling call); an unregistered tool
name yields the not-found placeholder string as that call result; a raising
invocation yields str(e) as that call result. -/
theorem tool_batch_isolation (registry : Registry) (calls : List ToolCall) :
    (SimpleToolExecutor.invoke registry calls).length = calls.length ∧
    (∀ i : Nat, (SimpleToolExecutor.invoke registry calls)[i]? =
      (calls[i]?).map (dispatchOne registry)) ∧
    (∀ call : ToolCall, List.lookup call.name registry = none →
      dispatchOne registry call =
        .base (.str ("Tool " ++ call.name ++ " not found."))) ∧
    (∀ (call : ToolCall) (t : PyVal → Except String PyVal) (e : String),
      List.lookup call.name registry = some t → t call.args = .error e →
      dispatchOne registry call = .base (.str e)) := by
  refine ⟨by simp [SimpleToolExecutor.invoke], ?_, ?_, ?_⟩
  · intro i
    simp [SimpleToolExecutor.invoke]
  · intro call h
    simp [dispatchOne, h]
  · intro call t e ht he
    simp [dispatchOne, ht, he]

/-- Witness for C3 on the spec batch: three results, in order, with the
middle one the not-found placeholder and the last one the raised error text,
the sibling valid call unaffected. -/
theorem tool_batch_isolation_witness :
    (SimpleToolExecutor.invoke demoRegistry demoCalls).length = 3 ∧
    (SimpleToolExecutor.invoke demoRegistry demoCalls)[0]? =
      some (.base (.int 4)) ∧
    (SimpleToolExecutor.invoke demoRegistry demoCalls)[1]? =
      some (.base (.str "Tool nope not found.")) ∧
    (SimpleToolExecutor.invoke demoRegistry demoCalls)[2]? =
      some (.base (.str "boom exploded")) := by
  have h := tool_batch_isolation demoRegistry demoCalls
  refine ⟨by rw [h.1]; rfl, ?_, ?_, ?_⟩
  · rw [h.2.1 0]; rfl
  · rw [h.2.1 1]; rfl
  · rw [h.2.1 2]; rfl

/-- C5 (the code contradicts the claim and its own docstring): on a URL with
an extractable video id whose transcript fetch fails, _get_transcript returns
None and line 140 evaluates len(None), so get_youtube_transcript raises
TypeError to its caller instead of returning an error string; the invalid-URL
branch and the truncation branch do return strings as documented. -/
theorem youtube_transcript_fetch_failure_raises :
    get_youtube_transcript (fun _ => none) "https://youtu.be/dQw4w9WgXcQ" =
      .error (.typeError "object of type \x27NoneType\x27 has no len()") ∧
    get_youtube_transcript (fun _ => none) "not a url" =
      .ok "HATA: Geçersiz YouTube URL\x27si." ∧
    get_youtube_transcript (fun _ => some ["hello", "world"])
        "https://www.youtube.com/watch?v=abc123" =
      .ok "hello world" := by
  exact ⟨rfl, rfl, rfl⟩

/-- C6 counterexample: a present but malformed store file makes json.load
raise, and load_memory propagates the exception instead of treating the
store as empty. -/
theorem load_memory_unreadable_raises :
    load_memory jsonLoad (some "not json") =
      .error "json.decoder.JSONDecodeError: Expecting value" := rfl

/-- C6 amended: a missing store file (and only that case) is treated as an
empty store, and lookup then behaves exactly as lookup over an empty list
(the retriever reports a miss); a present but unreadable store file raises
the parse error to the caller. -/
theorem load_memory_missing_soft_fail
    (parse : String → Except String (List CacheEntry)) :
    load_memory parse none = .ok [] ∧
    (∀ query : String, memoryLookup [] query = none) ∧
    (∀ (sysP : String) (st : AgentState),
      retriever sysP [] st = ⟨st.messages, some false⟩) ∧
    (∀ (doc : String) (e : String), parse doc = .error e →
      load_memory parse (some doc) = .error e) := by
  refine ⟨rfl, fun _ => rfl, fun _ _ => rfl, fun _ _ h => h⟩

/-- Witness for C6 amended with the modelled json parser, a concrete
malformed document, and a concrete query and state. -/
theorem load_memory_missing_soft_fail_witness :
    load_memory jsonLoad none = .ok [] ∧
    memoryLookup [] (pyNorm "anything") = none ∧
    retriever "sys" [] ⟨[.human "anything"], none⟩ =
      ⟨[.human "anything"], some false⟩ ∧
    load_memory jsonLoad (some "garbage") =
      .error "json.decoder.JSONDecodeError: Expecting value" := by
  have h := load_memory_missing_soft_fail jsonLoad
  exact ⟨h.1, h.2.1 (pyNorm "anything"), h.2.2.1 "sys" ⟨[.human "anything"], none⟩,
    h.2.2.2 "garbage" "json.decoder.JSONDecodeError: Expecting value" rfl⟩

lemma lastMessage_concat (ms : List Message) (m : Message) :
    lastMessage (ms ++ [m]) = m := by
  simp [lastMessage, List.getLastD_concat]

lemma step_retriever_hit (sysP : String) (oracle : String → String)
    (registry : Registry) (memory : List CacheEntry) (q : String)
    (e : CacheEntry) (f : Option Bool)
    (h : memoryLookup memory (pyNorm q) = some e) :
    graphStep sysP oracle registry ⟨.retriever, ⟨[.human q], f⟩, memory⟩ =
      some (⟨.done, ⟨[.system sysP, .ai e.answer []], some true⟩, memory⟩, none) := by
  have hr : retriever sysP memory ⟨[.human q], f⟩ =
      ⟨[.system sysP, .ai e.answer []], some true⟩ := by
    unfold retriever
    rw [show pyNorm (lastContent (AgentState.mk [Message.human q] f).messages)
          = pyNorm q from rfl, h]
  simp only [graphStep, hr]
  rfl

lemma step_retriever_miss (sysP : String) (oracle : String → String)
    (registry : Registry) (memory : List CacheEntry) (q : String)
    (f : Option Bool)
    (h : memoryLookup memory (pyNorm q) = none) :
    graphStep sysP oracle registry ⟨.retriever, ⟨[.human q], f⟩, memory⟩ =
      some (⟨.assistant, ⟨[.human q], some false⟩, memory⟩, none) := by
  have hr : retriever sysP memory ⟨[.human q], f⟩ =
      ⟨[.human q], some false⟩ := by
    unfold retriever
    rw [show pyNorm (lastContent (AgentState.mk [Message.human q] f).messages)
          = pyNorm q from rfl, h]
  simp only [graphStep, hr]
  rfl

lemma should_continue_assistant (sysP : String) (oracle : String → String)
    (st : AgentState) :
    should_continue (assistant sysP oracle st) = "save_answer" := by
  simp only [should_continue, assistant, lastMessage_concat]
  rfl

lemma step_assistant (sysP : String) (oracle : String → String)
    (registry : Registry) (memory : List CacheEntry) (st : AgentState) :
    graphStep sysP oracle registry ⟨.assistant, st, memory⟩ =
      some (⟨.save_answer, assistant sysP oracle st, memory⟩, some .modelCall) := by
  have hs := should_continue_assistant sysP oracle st
  have hne : ¬ should_continue (assistant sysP oracle st) = "tool_executor" := by
    rw [hs]; decide
  simp only [graphStep, hne, hs, if_true, if_false, ite_false, ite_true]
  simp

lemma step_save (sysP : String) (oracle : String → String)
    (registry : Registry) (memory : List CacheEntry) (st : AgentState) :
    graphStep sysP oracle registry ⟨.save_answer, st, memory⟩ =
      some (⟨.done, st, save_memory memory (saveEntry st)⟩, none) := rfl

lemma runAux_step_succ (sysP : String) (oracle : String → String)
    (registry : Registry) (fuel : Nat) (c : GraphConfig)
    (hnode : ¬ c.node = .done) (c2 : GraphConfig) (ev : Option TurnEvent)
    (hs : graphStep sysP oracle registry c = some (c2, ev)) :
    runAux sysP oracle registry (fuel + 1) c =
      (runAux sysP oracle registry fuel c2).map
        (fun r => (r.1, ev.toList ++ r.2)) := by
  simp [runAux, hnode, hs]

lemma runAux_done (sysP : String) (oracle : String → String)
    (registry : Registry) (fuel : Nat) (c : GraphConfig)
    (hnode : c.node = .done) :
    runAux sysP oracle registry (fuel + 1) c = some (c, []) := by
  simp [runAux, hnode]

lemma runTurn_hit (sysP : String) (oracle : String → String)
    (registry : Registry) (memory : List CacheEntry) (q : String)
    (e : CacheEntry)
    (h : memoryLookup memory (pyNorm q) = some e) :
    runTurn sysP oracle registry memory q =
      some (⟨.done, ⟨[.system sysP, .ai e.answer []], some true⟩, memory⟩, []) := by
  rw [runTurn, show (10 : Nat) = 9 + 1 from rfl,
    runAux_step_succ sysP oracle registry 9 _ (fun hc => GraphNode.noConfusion hc) _ _
      (step_retriever_hit sysP oracle registry memory q e none h),
    show (9 : Nat) = 8 + 1 from rfl,
    runAux_done sysP oracle registry 8 _ rfl]
  rfl

lemma runTurn_miss (sysP : String) (oracle : String → String)
    (registry : Registry) (memory : List CacheEntry) (q : String)
    (h : memoryLookup memory (pyNorm q) = none) :
    runTurn sysP oracle registry memory q =
      some (⟨.done,
             ⟨[.human q, .ai (oracle (promptOf sysP [.human q])) []], some false⟩,
             save_memory memory
               ⟨q, oracle (promptOf sysP [.human q])⟩⟩,
            [.modelCall]) := by
  have ha : assistant sysP oracle ⟨[.human q], some false⟩ =
      ⟨[.human q, .ai (oracle (promptOf sysP [.human q])) []], some false⟩ := rfl
  have hentry : saveEntry
      ⟨[.human q, .ai (oracle (promptOf sysP [.human q])) []], some false⟩ =
      ⟨q, oracle (promptOf sysP [.human q])⟩ := rfl
  rw [runTurn, show (10 : Nat) = 9 + 1 from rfl,
    runAux_step_succ sysP oracle registry 9 _ (fun hc => GraphNode.noConfusion hc) _ _
      (step_retriever_miss sysP oracle registry memory q none h),
    show (9 : Nat) = 8 + 1 from rfl,
    runAux_step_succ sysP oracle registry 8 _ (fun hc => GraphNode.noConfusion hc) _ _
      (step_assistant sysP oracle registry memory ⟨[.human q], some false⟩),
    ha,
    show (8 : Nat) = 7 + 1 from rfl,
    runAux_step_succ sysP oracle registry 7 _ (fun hc => GraphNode.noConfusion hc) _ _
      (step_save sysP oracle registry memory _),
    hentry,
    show (7 : Nat) = 6 + 1 from rfl,
    runAux_done sysP oracle registry 6 _ rfl]
  rfl

/-- C1: for every cache store and every user query, when the oldest-first
scan finds a first stored entry whose normalized question has similarity
strictly above 0.9 with the normalized query (the memoryLookup hypothesis is
exactly that first-match scan), the turn terminates with the final returned
content equal to that entry answer, and with an empty event trace: the model
endpoint and the tool dispatcher are never invoked. -/
theorem cache_hit_shortcut (sysP : String) (oracle : String → String)
    (registry : Registry) (memory : List CacheEntry) (q : String)
    (e : CacheEntry)
    (h : memoryLookup memory (pyNorm q) = some e) :
    ∃ final : GraphConfig,
      runTurn sysP oracle registry memory q = some (final, []) ∧
      final.node = .done ∧
      lastContent final.state.messages = e.answer := by
  exact ⟨_, runTurn_hit sysP oracle registry memory q e h, rfl, rfl⟩

set_option maxRecDepth 8000 in
/-- Witness for C1: a stored question matching the query after trimming and
lowercasing, a model oracle and a registry that are never consulted. -/
theorem cache_hit_shortcut_witness :
    memoryLookup [⟨"What is 2+2?", "4"⟩] (pyNorm " what is 2+2? ") =
      some ⟨"What is 2+2?", "4"⟩ ∧
    ∃ final : GraphConfig,
      runTurn "sys prompt" (fun _ => "model text") demoRegistry
          [⟨"What is 2+2?", "4"⟩] " what is 2+2? " = some (final, []) ∧
      final.node = .done ∧
      lastContent final.state.messages = "4" := by
  have hl : memoryLookup [⟨"What is 2+2?", "4"⟩] (pyNorm " what is 2+2? ") =
      some ⟨"What is 2+2?", "4"⟩ := by decide
  exact ⟨hl, cache_hit_shortcut "sys prompt" (fun _ => "model text") demoRegistry
    [⟨"What is 2+2?", "4"⟩] " what is 2+2? " ⟨"What is 2+2?", "4"⟩ hl⟩

/-- C8: on every reachable turn in which the retriever finds a stored entry
above the 0.9 threshold, the turn ends at the terminal node with the store
unchanged — the save node never appends for a query already satisfied by the
fuzzy match, so an append only happens on turns whose query matched nothing
above the threshold. -/
theorem no_duplicate_store (sysP : String) (oracle : String → String)
    (registry : Registry) (memory : List CacheEntry) (q : String)
    (e : CacheEntry)
    (h : memoryLookup memory (pyNorm q) = some e) :
    ∃ st : AgentState,
      runTurn sysP oracle registry memory q = some (⟨.done, st, memory⟩, []) :=
  ⟨_, runTurn_hit sysP oracle registry memory q e h⟩

set_option maxRecDepth 8000 in
/-- Witness for C8: a near-duplicate query against a populated store leaves
the store exactly as it was. -/
theorem no_duplicate_store_witness :
    ∃ st : AgentState,
      runTurn "sys prompt" (fun _ => "model text") demoRegistry
          [⟨"hello there", "hi!"⟩] "Hello there" =
        some (⟨.done, st, [⟨"hello there", "hi!"⟩]⟩, []) :=
  no_duplicate_store "sys prompt" (fun _ => "model text") demoRegistry
    [⟨"hello there", "hi!"⟩] "Hello there" ⟨"hello there", "hi!"⟩ (by decide)

/-- C9: whatever string the endpoint conversion yields, the assistant node
appends an assistant message with an empty tool_calls list; consequently, on
every cache-miss turn the tool-executor node is never entered and the turn
performs exactly one model invocation (event trace [modelCall]) and then
saves: the final store is the save_memory append of the question and the
model text. -/
theorem assistant_never_requests_tools (sysP : String) (oracle : String → String)
    (registry : Registry) (memory : List CacheEntry) (q : String)
    (h : memoryLookup memory (pyNorm q) = none) :
    (∀ st : AgentState, lastMessage (assistant sysP oracle st).messages =
      .ai (oracle (promptOf sysP st.messages)) []) ∧
    runTurn sysP oracle registry memory q =
      some (⟨.done,
             ⟨[.human q, .ai (oracle (promptOf sysP [.human q])) []], some false⟩,
             save_memory memory ⟨q, oracle (promptOf sysP [.human q])⟩⟩,
            [.modelCall]) :=
  ⟨fun st => lastMessage_concat st.messages _,
   runTurn_miss sysP oracle registry memory q h⟩

/-- Witness for C9 on an empty store: one model call, then the answer is
saved. -/
theorem assistant_never_requests_tools_witness :
    lastMessage (assistant "sp" (fun _ => "yo") ⟨[.human "hi"], none⟩).messages =
      .ai "yo" [] ∧
    runTurn "sp" (fun _ => "yo") demoRegistry [] "hi" =
      some (⟨.done, ⟨[.human "hi", .ai "yo" []], some false⟩, [⟨"hi", "yo"⟩]⟩,
            [.modelCall]) := by
  have h := assistant_never_requests_tools "sp" (fun _ => "yo") demoRegistry [] "hi" rfl
  exact ⟨h.1 ⟨[.human "hi"], none⟩, by rw [h.2]; rfl⟩

/-- C10: on a cache hit the retriever does not append to the incoming
conversation: it returns exactly the two messages system prompt then cached
answer, and no Human message (in particular not the original query) survives
in the returned state. -/
theorem retriever_hit_two_messages (sysP : String) (memory : List CacheEntry)
    (st : AgentState) (e : CacheEntry)
    (h : memoryLookup memory (pyNorm (lastContent st.messages)) = some e) :
    retriever sysP memory st = ⟨[.system sysP, .ai e.answer []], some true⟩ ∧
    (retriever sysP memory st).messages.length = 2 ∧
    ∀ m ∈ (retriever sysP memory st).messages, m.isHuman = false := by
  have hr : retriever sysP memory st =
      ⟨[.system sysP, .ai e.answer []], some true⟩ := by
    unfold retriever; rw [h]
  refine ⟨hr, by rw [hr]; rfl, ?_⟩
  rw [hr]
  intro m hm
  simp only [List.mem_cons, List.not_mem_nil, or_false] at hm
  rcases hm with rfl | rfl <;> rfl

set_option maxRecDepth 8000 in
/-- Witness for C10 at a concrete store, query and conversation. -/
theorem retriever_hit_two_messages_witness :
    retriever "sys prompt" [⟨"ping", "pong"⟩] ⟨[.human "ping"], none⟩ =
      ⟨[.system "sys prompt", .ai "pong" []], some true⟩ ∧
    (retriever "sys prompt" [⟨"ping", "pong"⟩] ⟨[.human "ping"], none⟩).messages.length
      = 2 ∧
    ∀ m ∈ (retriever "sys prompt" [⟨"ping", "pong"⟩]
        ⟨[.human "ping"], none⟩).messages, m.isHuman = false :=
  retriever_hit_two_messages "sys prompt" [⟨"ping", "pong"⟩]
    ⟨[.human "ping"], none⟩ ⟨"ping", "pong"⟩ (by decide)

/-- C2 counterexample: a state whose last message is an assistant message
with no pending tool calls but whose cache-hit flag is set (exactly the shape
the retriever produces on a hit) is routed by should_continue to "end", not
to the save node — so the claim quantified over every state with an assistant
last message fails on the code. -/
theorem loop_transition_counterexample :
    lastMessage [Message.ai "cached answer" []] = .ai "cached answer" [] ∧
    should_continue ⟨[.ai "cached answer" []], some true⟩ = "end" ∧
    ¬ should_continue ⟨[.ai "cached answer" []], some true⟩ = "save_answer" := by
  refine ⟨rfl, rfl, ?_⟩
  intro hc
  simp [should_continue] at hc

lemma zip_dispatch_map (registry : Registry) (calls : List ToolCall) :
    (calls.zip (SimpleToolExecutor.invoke registry calls)).map
      (fun pr => Message.tool (jsonDumps pr.2) pr.1.id) =
    calls.map
      (fun call => Message.tool (jsonDumps (dispatchOne registry call)) call.id) := by
  induction calls with
  | nil => rfl
  | cons c cs ih =>
    show ((c :: cs).zip
        (dispatchOne registry c :: SimpleToolExecutor.invoke registry cs)).map _ = _
    rw [List.zip_cons_cons, List.map_cons, ih]
    rfl

/-- C2 amended: restricted to states whose cache-hit flag is not set (which
covers every state the assistant node can hand to the transition rule), a
last assistant message with no pending calls routes to the save node, and one
with N pending calls routes to the tool executor, which appends exactly N
ToolResult messages in call order, each content the serialized result of its
own call and each tagged with its originating call id, after which the graph
edge returns control to the assistant (model-call) node. -/
theorem loop_transition_amended (sysP : String) (oracle : String → String)
    (registry : Registry) (memory : List CacheEntry) (st : AgentState)
    (content : String) (calls : List ToolCall)
    (hflag : ¬ st.retrieved_answer_found = some true)
    (hlast : lastMessage st.messages = .ai content calls) :
    (calls = [] → should_continue st = "save_answer") ∧
    (calls ≠ [] →
      should_continue st = "tool_executor" ∧
      (tool_executor_node registry st).messages =
        st.messages ++ calls.map
          (fun call => Message.tool (jsonDumps (dispatchOne registry call)) call.id) ∧
      (tool_executor_node registry st).messages.length =
        st.messages.length + calls.length ∧
      graphStep sysP oracle registry ⟨.tool_executor, st, memory⟩ =
        some (⟨.assistant, tool_executor_node registry st, memory⟩,
              some .toolExec)) := by
  constructor
  · intro hc
    subst hc
    unfold should_continue
    rw [if_neg hflag, hlast]
  · intro hc
    obtain ⟨c0, cs0, rfl⟩ : ∃ c0 cs0, calls = c0 :: cs0 := by
      cases calls with
      | nil => exact absurd rfl hc
      | cons a b => exact ⟨a, b, rfl⟩
    have hmsgs : (tool_executor_node registry st).messages =
        st.messages ++ (c0 :: cs0).map
          (fun call => Message.tool (jsonDumps (dispatchOne registry call)) call.id) := by
      unfold tool_executor_node
      rw [hlast]
      simp only []
      rw [zip_dispatch_map]
    refine ⟨?_, hmsgs, ?_, rfl⟩
    · unfold should_continue
      rw [if_neg hflag, hlast]
    · rw [hmsgs]
      simp

/-- Witness for the amended C2: two pending calls produce exactly the two
serialized, id-tagged ToolResult messages and the edge back to the assistant
node. -/
theorem loop_transition_amended_witness :
    should_continue demoToolState = "tool_executor" ∧
    (tool_executor_node demoRegistry demoToolState).messages =
      demoToolState.messages ++
        [Message.tool "4" "id1",
         Message.tool "\"Tool nope not found.\"" "id2"] ∧
    graphStep "sp" (fun _ => "stop") demoRegistry
        ⟨.tool_executor, demoToolState, []⟩ =
      some (⟨.assistant, tool_executor_node demoRegistry demoToolState, []⟩,
            some .toolExec) := by
  have h := loop_transition_amended "sp" (fun _ => "stop") demoRegistry []
    demoToolState "calling tools" demoToolCalls (by decide) rfl
  have h2 := h.2 (by decide)
  refine ⟨h2.1, ?_, h2.2.2.2⟩
  rw [h2.2.1]
  rfl

end Agent
